import Mathlib

/-!
# Verification of the landio authentication core

A shallow embedding of the authentication and session-trust core of the
landio admin dashboard (`src/routes/auth.js`, `src/routes/2fa.js`,
`src/routes/sso.js`), together with proofs about the behaviour of the
embedded operations.

Modelling conventions:
* The SQLite `users` and `settings` tables are lists of records; the
  node-sqlite3 `db.get` (first matching row) is `List.find?`.
* Timestamps are naturals counting milliseconds (JavaScript
  `Date.getTime()`); a JavaScript *Invalid Date* is `none`.
* JWT signing/verification is modelled symbolically: a token records its
  claims, the secret it was signed with and its expiry; verification
  checks the secret and the expiry, exactly the information
  `jsonwebtoken` extracts cryptographically.
* bcrypt is modelled as an ideal injective hash.
* TOTP verification is time- and secret-dependent cryptography; it is
  abstracted as an explicit boolean function `totpVerify : secret →
  candidate code → Bool` passed to the operations that call
  `speakeasy.totp.verify`.
-/

set_option maxRecDepth 8000

namespace Landio

/-! ## String helpers mirroring the JavaScript primitives used -/

/-- `sub.isPrefixOf l` on character lists. -/
def charsPrefix (sub l : List Char) : Bool :=
  match sub, l with
  | [], _ => true
  | _ :: _, [] => false
  | c :: cs, d :: ds => c == d && charsPrefix cs ds

/-- Substring search on character lists. -/
def charsContains (l sub : List Char) : Bool :=
  match l with
  | [] => charsPrefix sub []
  | _ :: rest => charsPrefix sub l || charsContains rest sub

/-- JavaScript `s.includes(sub)`. -/
def strContains (s sub : String) : Bool :=
  charsContains s.toList sub.toList

/-- JavaScript `s.split(sep)` for a one-character separator, on character
lists: `"a,b" ↦ [[a],[b]]`, `"" ↦ [[]]`, `"a," ↦ [[a],[]]`. -/
def splitCharsAux (sep : Char) : List Char → List (List Char)
  | [] => [[]]
  | c :: rest =>
    if c == sep then [] :: splitCharsAux sep rest
    else
      match splitCharsAux sep rest with
      | [] => [[c]]
      | h :: t => (c :: h) :: t

/-- JavaScript `s.split(sep)` for a one-character separator. -/
def strSplit (s : String) (sep : Char) : List String :=
  (splitCharsAux sep s.data).map String.mk

/-- JavaScript `s.toUpperCase()` (ASCII, which covers every value the
core uppercases: backup codes are alphanumeric). -/
def jsToUpper (s : String) : String := String.mk (s.data.map Char.toUpper)

/-- JavaScript `s.toLowerCase()` (ASCII). -/
def jsToLower (s : String) : String := String.mk (s.data.map Char.toLower)

/-- JavaScript `s.startsWith(pre)`. -/
def strStartsWith (s pre : String) : Bool := charsPrefix pre.data s.data

/-- JavaScript `s.endsWith(suf)`. -/
def strEndsWith (s suf : String) : Bool := charsPrefix suf.data.reverse s.data.reverse

/-- An ASCII whitespace character, for `trim`. -/
def isSpaceChar (c : Char) : Bool := c == ' ' || c == '\t' || c == '\n' || c == '\r'

/-- JavaScript `s.trim()`. -/
def strTrim (s : String) : String :=
  String.mk (((s.data.dropWhile isSpaceChar).reverse.dropWhile isSpaceChar).reverse)

/-- Digit-string parsing: `some n` exactly on a non-empty all-digit
string, the behaviour of `Number(v)` / `parseInt(v)` on the integer-valued
configuration strings the core stores. -/
def parseNatAux : List Char → Nat → Option Nat
  | [], acc => some acc
  | c :: rest, acc =>
    if 48 ≤ c.toNat && c.toNat ≤ 57 then parseNatAux rest (acc * 10 + (c.toNat - 48))
    else none

/-- `parseNat s`: see `parseNatAux`. -/
def parseNat (s : String) : Option Nat :=
  match s.data with
  | [] => none
  | cs => parseNatAux cs 0

/-! ## Data model: rows of the `users` and `settings` tables -/

/-- A row of the `users` table (see `scripts/init-db.js`), restricted to the
columns the authentication core reads or writes. -/
structure UserRow where
  id : Nat
  username : String
  name : String := ""
  displayName : Option String := none
  email : String
  passwordHash : Option String := none
  role : String := "user"
  isActive : Bool := true
  failedAttempts : Nat := 0
  /-- `last_failed_attempt`; `none` is SQL NULL. -/
  lastFailedAttemptMs : Option Nat := none
  createdAtMs : Nat := 0
  ssoProvider : Option String := none
  ssoId : Option String := none
  lastLoginMs : Option Nat := none
  loginCount : Nat := 0
  deriving Repr, DecidableEq

/-- A row of the `settings` table: `user_id IS NULL` (`userId = none`) is a
system-wide setting, otherwise a per-user setting. -/
structure SettingRow where
  userId : Option Nat
  key : String
  value : String
  updatedAtMs : Nat := 0
  deriving Repr, DecidableEq

/-- The persistent store visible to the authentication core. -/
structure DB where
  users : List UserRow
  settings : List SettingRow
  deriving Repr, DecidableEq

/-- `SELECT ... FROM users WHERE id = ?` (`db.get`: first matching row). -/
def dbGetUserById (db : DB) (uid : Nat) : Option UserRow :=
  db.users.find? (fun u => u.id == uid)

/-- `SELECT * FROM users WHERE username = ? OR email = ?` with the same
identifier bound to both placeholders (`/login`, auth.js line 530). -/
def dbGetUserByIdentifier (db : DB) (ident : String) : Option UserRow :=
  db.users.find? (fun u => u.username == ident || u.email == ident)

/-- `SELECT value FROM settings WHERE key = ? AND user_id IS NULL`. -/
def getSystemSetting (db : DB) (key : String) : Option String :=
  (db.settings.find? (fun r => r.userId.isNone && r.key == key)).map (·.value)

/-- `SELECT value FROM settings WHERE user_id = ? AND key = ?`. -/
def getUserSetting (db : DB) (uid : Nat) (key : String) : Option String :=
  (db.settings.find? (fun r => r.userId == some uid && r.key == key)).map (·.value)

/-- `getSecuritySetting` (auth.js lines 264-285) at a numeric key: the stored
string is coerced with `Number(value)`; the default is used when the row is
absent.  All numeric settings the core reads (`max-login-attempts`,
`lockout-duration`, `session-timeout`) are non-negative integers. -/
def getNatSetting (db : DB) (key : String) (dflt : Nat) : Nat :=
  match getSystemSetting db key with
  | none => dflt
  | some v => (parseNat v).getD dflt

/-! ## Token Issuer: symbolic JWTs -/

/-- The claim sets the core signs into tokens.  Absent claims are `none`
(the 5-minute pending verification token carries only `id` and `email`). -/
structure Claims where
  id : Nat
  username : Option String := none
  email : Option String := none
  name : Option String := none
  displayName : Option String := none
  role : Option String := none
  purpose : Option String := none
  deriving Repr, DecidableEq

/-- A signed token: claims, the signing secret, and the absolute expiry. -/
structure Jwt where
  claims : Claims
  secret : String
  expMs : Nat
  deriving Repr, DecidableEq

/-- The server's signing secret (auth.js line 8). -/
def jwtSecret : String := "your-jwt-secret-change-in-production"

/-- `jwt.sign(claims, secret, { expiresIn })`. -/
def jwtSign (c : Claims) (secret : String) (nowMs : Nat) (expiresInSec : Nat) : Jwt :=
  { claims := c, secret := secret, expMs := nowMs + expiresInSec * 1000 }

/-- `jwt.verify(token, secret, cb)`: the callback receives the decoded
claims exactly when the signature matches and the token is unexpired. -/
def jwtVerify (t : Jwt) (secret : String) (nowMs : Nat) : Option Claims :=
  if t.secret == secret && nowMs < t.expMs then some t.claims else none

/-! ## Per-request authorization: `authenticateToken` (auth.js lines 11-96) -/

/-- Outcome of the `authenticateToken` middleware.  The constructors carry
the HTTP status/message rendered at each exit of the source. -/
inductive AuthResult where
  /-- 401 `'Access token required'` -/
  | missingToken
  /-- 403 `'Invalid or expired token'` -/
  | invalidToken
  /-- 403 `'User not found or has been deleted'` -/
  | userNotFound
  /-- 403 `'User account is disabled'` -/
  | accountDisabled
  /-- 403 `'Access denied: IP not whitelisted'` -/
  | ipNotAllowed
  /-- `req.user = user; next()` -/
  | ok (user : Claims)
  deriving Repr, DecidableEq

/-- One entry of the `allowed-ips` list matching the client IP
(auth.js lines 67-76): CIDR-ish entries compare the first three dotted
components as a substring, plain entries compare for equality. -/
def ipMatches (clientIP allowedIP : String) : Bool :=
  if strContains allowedIP "/" then
    let network := (strSplit allowedIP '/').headD ""
    strContains clientIP (String.intercalate "." ((strSplit network '.').take 3))
  else clientIP == allowedIP

/-- `authenticateToken` (auth.js lines 11-96): verify the token's signature
and expiry, then re-resolve the embedded user id against the `users` table,
rejecting a missing or inactive account, then apply the optional IP
whitelist. -/
def authenticateToken (db : DB) (nowMs : Nat) (clientIP : String)
    (token : Option Jwt) : AuthResult :=
  match token with
  | none => .missingToken
  | some t =>
    match jwtVerify t jwtSecret nowMs with
    | none => .invalidToken
    | some user =>
      match dbGetUserById db user.id with
      | none => .userNotFound
      | some dbUser =>
        if !dbUser.isActive then .accountDisabled
        else
          if getSystemSetting db "ip-whitelist" == some "true" then
            match getSystemSetting db "allowed-ips" with
            | none => .ok user
            | some ips =>
              let allowedIPs := (strSplit ips ',').map strTrim
              if allowedIPs.any (fun a => ipMatches clientIP a) then .ok user
              else .ipNotAllowed
          else .ok user

/-- `DELETE FROM users WHERE id = ?` — the administrative deletion that the
"token refers to deleted user" contract guards against. -/
def deleteUser (db : DB) (uid : Nat) : DB :=
  { db with users := db.users.filter (fun u => !(u.id == uid)) }

/-! ## Account lockout (auth.js lines 303-364) -/

/-- Result of `checkAccountLockout`'s callback: `locked` carries the
`lockedUntil`/`minutesRemaining` payload of the 429 response. -/
inductive LockoutStatus where
  | notLocked
  | locked (lockedUntilMs : Nat) (minutesRemaining : Nat)
  deriving Repr, DecidableEq

/-- `UPDATE users SET failed_attempts = 0, last_failed_attempt = NULL
WHERE id = ?` — run both by `resetFailedAttempts` (auth.js lines 358-364)
and by the lockout-expiry branch of `checkAccountLockout` (lines 334-341). -/
def resetFailedAttempts (db : DB) (uid : Nat) : DB :=
  { db with
    users := db.users.map (fun u =>
      if u.id == uid then { u with failedAttempts := 0, lastFailedAttemptMs := none }
      else u) }

/-- `UPDATE users SET failed_attempts = failed_attempts + 1,
last_failed_attempt = CURRENT_TIMESTAMP WHERE id = ?` (auth.js lines
349-355). -/
def recordFailedAttempt (db : DB) (uid : Nat) (nowMs : Nat) : DB :=
  { db with
    users := db.users.map (fun u =>
      if u.id == uid then
        { u with failedAttempts := u.failedAttempts + 1, lastFailedAttemptMs := some nowMs }
      else u) }

/-- `checkAccountLockout` (auth.js lines 304-346).  Locked iff the failure
counter has reached `max-login-attempts` (default 5) and less than
`lockout-duration` seconds (default 3600) have passed since the last
failure; an expired lockout window resets the counter inside the check.
The source compares `(now - lastFailed)/1000 < lockoutDuration` over
floats; the equivalent integer comparison `now - lastFailed <
lockoutDuration * 1000` is used here.  `new Date(null).getTime()` is `0`,
so a NULL `last_failed_attempt` reads as time 0. -/
def checkAccountLockout (db : DB) (nowMs : Nat) (uid : Nat) : DB × LockoutStatus :=
  let maxAttempts := getNatSetting db "max-login-attempts" 5
  let lockoutDuration := getNatSetting db "lockout-duration" 3600
  match dbGetUserById db uid with
  | none => (db, .notLocked)
  | some u =>
    if u.failedAttempts < maxAttempts then (db, .notLocked)
    else
      let lastMs : Nat := u.lastFailedAttemptMs.getD 0
      let timeSinceMs : Int := (nowMs : Int) - (lastMs : Int)
      if timeSinceMs < (lockoutDuration : Int) * 1000 then
        -- `Math.ceil((lockoutDuration - timeSince) / 60)` over seconds,
        -- computed as a ceiling division over milliseconds.
        let minutesRemaining : Nat :=
          (((lockoutDuration : Int) * 1000 - timeSinceMs + 59999) / 60000).toNat
        (db, .locked (lastMs + lockoutDuration * 1000) minutesRemaining)
      else
        (resetFailedAttempts db uid, .notLocked)

/-! ## 2FA enforcement policy: `is2FARequired` (auth.js lines 159-261) -/

/-- The enforcement object `is2FARequired` passes to its callback. -/
structure Enforcement where
  required : Bool
  enabled : Bool
  gracePeriod : Nat
  enrollmentRequired : Bool
  deriving Repr, DecidableEq

/-- JavaScript `<` between two `Date` values, where `none` stands for an
Invalid Date (`new Date(undefined)`): an Invalid Date converts to `NaN`
and every comparison involving `NaN` is false. -/
def jsDateLt : Option Nat → Option Nat → Bool
  | some a, some b => a < b
  | _, _ => false

/-- `parseInt(row.value) || 7` (auth.js line 182): a missing row, an
unparseable value, and the value `0` all fall back to 7. -/
def parseGracePeriod : Option String → Nat
  | none => 7
  | some v =>
    match parseNat v with
    | none => 7
    | some n => if n == 0 then 7 else n

/-- `SELECT updated_at FROM settings WHERE user_id IS NULL AND key IN
('enforce-2fa-all-users', 'enforce-2fa-admins-only') AND value = 'true'
ORDER BY updated_at DESC LIMIT 1` (auth.js lines 212-214). -/
def latestTrueEnforcementRow (db : DB) : Option SettingRow :=
  let rows := db.settings.filter (fun r =>
    r.userId.isNone &&
    (r.key == "enforce-2fa-all-users" || r.key == "enforce-2fa-admins-only") &&
    r.value == "true")
  rows.foldl (fun acc r =>
    match acc with
    | none => some r
    | some b => if b.updatedAtMs < r.updatedAtMs then some r else some b) none

/-- `is2FARequired(user, callback)` (auth.js lines 159-261).  Returns the
pair the callback receives: `(isRequired, enforcement)`.

Faithfulness note on the forced-enrollment branch (lines 225-230): the SQL
query selects only `updated_at`, so the returned row object has no
`created_at` field; `enforcementRow.created_at` is `undefined`,
`new Date(undefined)` is an *Invalid Date*, and the comparison
`userCreatedAt < enforcementEnabledAt` is therefore `false` whenever the
row exists (`jsDateLt _ none`).  The `enforcementEnabledAt && ...` guard
makes the whole expression `false` when the row is absent as well. -/
def is2FARequired (db : DB) (user : UserRow) : Bool × Enforcement :=
  let enforce2faAllUsers := getSystemSetting db "enforce-2fa-all-users" == some "true"
  let enforce2faAdminsOnly := getSystemSetting db "enforce-2fa-admins-only" == some "true"
  let twoFAGracePeriod := parseGracePeriod (getSystemSetting db "twofa-grace-period")
  let twoFAEnabled := db.settings.any (fun r =>
    r.userId == some user.id &&
    (r.key == "twofa_enabled" || r.key == "twoFactorEnabled") &&
    r.value == "true")
  let required :=
    if enforce2faAllUsers then true
    else if enforce2faAdminsOnly then user.role == "admin"
    else false
  if required && !twoFAEnabled then
    let enforcementRow := latestTrueEnforcementRow db
    let forceImmediateEnrollment :=
      match enforcementRow with
      | some _ => jsDateLt (some user.createdAtMs) none
      | none => false
    let alreadyFlagged :=
      getUserSetting db user.id "2faEnrollmentRequired" == some "true"
    (true,
      { required := true
        enabled := false
        gracePeriod := if forceImmediateEnrollment then 0 else twoFAGracePeriod
        enrollmentRequired := forceImmediateEnrollment || alreadyFlagged })
  else
    (required && !twoFAEnabled,
      { required := required
        enabled := twoFAEnabled
        gracePeriod := twoFAGracePeriod
        enrollmentRequired := false })

/-! ## The login orchestrator: `POST /login` (auth.js lines 514-714) -/

/-- bcrypt modelled as an ideal injective hash: `bcryptHash pw` is the
stored `password_hash` of an account whose password is `pw`. -/
def bcryptHash (password : String) : String :=
  "$2b$10$" ++ password

/-- `bcrypt.compare(password, user.password_hash, cb)`: `none` models the
callback receiving an error (a NULL hash, as on pure-SSO accounts), which
the login route turns into the 500 `'Authentication error'` response. -/
def bcryptCompare (password : String) (hash : Option String) : Option Bool :=
  match hash with
  | none => none
  | some h => some (h == bcryptHash password)

/-- The checks the login handler performs, in the order it performs them;
used to state check-ordering properties. -/
inductive Check where
  | initializedCheck
  | userLookup
  | lockoutCheck
  | passwordCompare
  | activeCheck
  | twoFACheck
  | tokenIssue
  deriving Repr, DecidableEq

/-- The typed responses of `POST /login`; each constructor corresponds to
one `res.status(...).json(...)` exit of the handler. -/
inductive LoginResponse where
  /-- 400 `'Username or email and password are required'` -/
  | missingFields
  /-- 503 `NOT_INITIALIZED` -/
  | notInitialized
  /-- 401 `'Invalid username, email or password'` — the one generic
  rejection used both when the identifier matches no account and when the
  password is wrong. -/
  | invalidCredentials
  /-- 429 `ACCOUNT_LOCKED` with remaining time -/
  | accountLocked (lockedUntilMs : Nat) (minutesRemaining : Nat)
  /-- 500 `'Authentication error'` (bcrypt error) -/
  | authError
  /-- 403 `'Account is disabled'` -/
  | accountDisabled
  /-- 403 `ENROLLMENT_REQUIRED` with the 30-minute enrollment token -/
  | enrollmentRequired (forced : Bool) (gracePeriod : Nat) (tempToken : Jwt)
  /-- `{ requiresTwoFactor: true, userId, temporaryToken }` -/
  | requiresTwoFactor (userId : Nat) (temporaryToken : Jwt)
  /-- `{ token, user }` — the full session token -/
  | success (userId : Nat) (token : Jwt)
  deriving Repr, DecidableEq

/-- The full-session claim set (auth.js lines 653-661): id, username, name,
display name (`display_name || name`), email, role. -/
def fullClaims (u : UserRow) : Claims :=
  { id := u.id
    username := some u.username
    name := some u.name
    displayName := some (u.displayName.getD u.name)
    email := some u.email
    role := some u.role }

/-- `UPDATE users SET last_login = CURRENT_TIMESTAMP,
login_count = login_count + 1 WHERE id = ?`. -/
def bumpLoginStats (db : DB) (uid : Nat) (nowMs : Nat) : DB :=
  { db with
    users := db.users.map (fun u =>
      if u.id == uid then
        { u with lastLoginMs := some nowMs, loginCount := u.loginCount + 1 }
      else u) }

/-- `POST /login` (auth.js lines 514-714) over one identifier (the handler
folds `username || email` into a single lookup value).  Returns the store
after the handler's writes, the response, and the ordered list of checks
the handler ran. -/
def login (db : DB) (nowMs : Nat) (identifier password : String) :
    DB × LoginResponse × List Check :=
  if identifier == "" || password == "" then (db, .missingFields, [])
  else if db.users.isEmpty then (db, .notInitialized, [.initializedCheck])
  else
    match dbGetUserByIdentifier db identifier with
    | none => (db, .invalidCredentials, [.initializedCheck, .userLookup])
    | some user =>
      match checkAccountLockout db nowMs user.id with
      | (db1, .locked lockedUntil mins) =>
        (db1, .accountLocked lockedUntil mins,
          [.initializedCheck, .userLookup, .lockoutCheck])
      | (db1, .notLocked) =>
        match bcryptCompare password user.passwordHash with
        | none =>
          (db1, .authError,
            [.initializedCheck, .userLookup, .lockoutCheck, .passwordCompare])
        | some false =>
          (recordFailedAttempt db1 user.id nowMs, .invalidCredentials,
            [.initializedCheck, .userLookup, .lockoutCheck, .passwordCompare])
        | some true =>
          let db2 := resetFailedAttempts db1 user.id
          if !user.isActive then
            (db2, .accountDisabled,
              [.initializedCheck, .userLookup, .lockoutCheck, .passwordCompare,
               .activeCheck])
          else
            let (isRequired, enforcement) := is2FARequired db2 user
            -- `SELECT value FROM settings WHERE user_id = ? AND key = 'twofa_enabled'`
            let twoFAEnabled := getUserSetting db2 user.id "twofa_enabled" == some "true"
            let trace := [Check.initializedCheck, .userLookup, .lockoutCheck,
              .passwordCompare, .activeCheck, .twoFACheck]
            if isRequired && !twoFAEnabled then
              let tempToken := jwtSign
                { id := user.id, email := some user.email, purpose := some "2fa-enrollment" }
                jwtSecret nowMs (30 * 60)
              (db2,
                .enrollmentRequired enforcement.enrollmentRequired
                  enforcement.gracePeriod tempToken,
                trace)
            else if twoFAEnabled then
              let temporaryToken := jwtSign
                { id := user.id, email := some user.email } jwtSecret nowMs (5 * 60)
              (db2, .requiresTwoFactor user.id temporaryToken, trace)
            else
              let sessionTimeout := getNatSetting db2 "session-timeout" 3600
              let token := jwtSign (fullClaims user) jwtSecret nowMs sessionTimeout
              (bumpLoginStats db2 user.id nowMs, .success user.id token,
                trace ++ [.tokenIssue])

/-! ## Second-factor completion: `POST /2fa-complete` (auth.js lines 801-880) -/

/-- Responses of `POST /2fa-complete`. -/
inductive CompleteResponse where
  /-- the `authenticateToken` middleware rejected the request -/
  | authFailed (r : AuthResult)
  /-- 404 `'User not found'` -/
  | userNotFound
  /-- `{ token, user }` — a fresh 24h full session token -/
  | success (userId : Nat) (token : Jwt)
  deriving Repr, DecidableEq

/-- `POST /2fa-complete` (auth.js lines 801-880): the route is guarded only
by `authenticateToken`; it re-reads the user and mints a fresh 24-hour full
session token.  Nothing records that a presented pending token has been
used. -/
def twofaComplete (db : DB) (nowMs : Nat) (clientIP : String)
    (token : Option Jwt) : DB × CompleteResponse :=
  match authenticateToken db nowMs clientIP token with
  | .ok user =>
    match dbGetUserById db user.id with
    | none => (db, .userNotFound)
    | some u =>
      let newToken := jwtSign (fullClaims u) jwtSecret nowMs (24 * 3600)
      (bumpLoginStats db u.id nowMs, .success u.id newToken)
  | r => (db, .authFailed r)

/-! ## Second-Factor Manager (2fa.js) -/

/-- `INSERT OR REPLACE INTO settings (user_id, key, value, category)` for a
single (user, key) pair. -/
def upsertUserSetting (db : DB) (uid : Nat) (key value : String) (nowMs : Nat) : DB :=
  let removed := db.settings.filter (fun r => !(r.userId == some uid && r.key == key))
  { db with
    settings := removed ++ [{ userId := some uid, key := key, value := value,
                              updatedAtMs := nowMs }] }

/-- `["A","B"]` for a list of backup codes (`JSON.stringify`). -/
def jsonStringifyCodes (codes : List String) : String :=
  "[" ++ String.intercalate "," (codes.map (fun c => "\"" ++ c ++ "\"")) ++ "]"

/-- The successful branch of `POST /2fa/verify` / `POST /2fa/verify-setup`
(2fa.js lines 67-76 and 181-190): one `INSERT OR REPLACE` persisting the
secret, the JSON backup-code set, and the `twofa_enabled` flag. -/
def enable2FA (db : DB) (uid : Nat) (secret : String) (backupCodes : List String)
    (nowMs : Nat) : DB :=
  let db1 := upsertUserSetting db uid "twoFactorSecret" secret nowMs
  let db2 := upsertUserSetting db1 uid "twoFactorBackupCodes"
    (jsonStringifyCodes backupCodes) nowMs
  upsertUserSetting db2 uid "twofa_enabled" "true" nowMs

/-- `POST /2fa/disable` (2fa.js lines 98-122): `DELETE FROM settings WHERE
user_id = ? AND key IN ('twoFactorEnabled', 'twoFactorSecret',
'twoFactorBackupCodes')`.  Express dispatches a request to the first
matching route, so this handler — not the later duplicate `/disable` at
lines 254-275, which deletes `twofa_enabled` — serves every
`POST /2fa/disable`. -/
def disable2FA (db : DB) (uid : Nat) : DB :=
  { db with
    settings := db.settings.filter (fun r =>
      !(r.userId == some uid &&
        (r.key == "twoFactorEnabled" || r.key == "twoFactorSecret" ||
         r.key == "twoFactorBackupCodes"))) }

/-- `SELECT value FROM settings WHERE user_id = ? AND key IN (?, ?) ORDER BY
CASE WHEN key = preferred THEN 1 ELSE 2 END LIMIT 1`: the row with the
preferred key wins when both exist. -/
def getPreferredUserSetting (db : DB) (uid : Nat) (preferred fallback : String) :
    Option String :=
  match getUserSetting db uid preferred with
  | some v => some v
  | none => getUserSetting db uid fallback

/-- Strip one leading and one trailing double quote (a JSON string literal
of a backup code, which contains no escapes). -/
def stripQuotes (s : String) : String :=
  if strStartsWith s "\"" && strEndsWith s "\"" && s.length ≥ 2 then
    (s.drop 1).dropRight 1
  else s

/-- `JSON.parse` of a well-formed `["A","B"]` backup-code array (codes are
8-character alphanumerics, so no escapes, commas or brackets occur inside
them). -/
def parseJsonCodes (v : String) : List String :=
  let inner := (v.drop 1).dropRight 1
  if inner == "" then [] else (strSplit inner ',').map stripQuotes

/-- 2fa.js lines 317-323: try `JSON.parse`, fall back to
`value.split(',')`.  A stored value beginning with `[` is the JSON format;
anything else makes `JSON.parse` throw and is comma-split. -/
def parseBackupCodes (v : String) : List String :=
  if strStartsWith v "[" then parseJsonCodes v else strSplit v ','

/-- 2fa.js lines 335-337: serialize in the same format the value was
stored in (`value.startsWith('[')`). -/
def serializeBackupCodes (originalValue : String) (codes : List String) : String :=
  if strStartsWith originalValue "[" then jsonStringifyCodes codes
  else String.intercalate "," codes

/-- `UPDATE settings SET value = ? WHERE user_id = ? AND key IN
('backup_codes', 'twoFactorBackupCodes')` (2fa.js lines 339-344). -/
def updateBackupCodes (db : DB) (uid : Nat) (newValue : String) : DB :=
  { db with
    settings := db.settings.map (fun r =>
      if r.userId == some uid && (r.key == "backup_codes" || r.key == "twoFactorBackupCodes")
      then { r with value := newValue }
      else r) }

/-- Responses of `POST /2fa/verify-login`.  There is no "2FA not enrolled"
response: every failure, including the absence of any stored secret, is
the 400 `'Invalid TOTP code'`. -/
inductive VerifyLoginResponse where
  /-- 400 `'Invalid TOTP code'` -/
  | invalidCode
  /-- `{ verified: true }` (TOTP matched) -/
  | verifiedTotp
  /-- `{ verified: true, message: 'Backup code used' }` -/
  | verifiedBackup
  deriving Repr, DecidableEq

/-- `POST /2fa/verify-login` (2fa.js lines 278-361).  The route has no
authentication middleware and reads only `userId` and `code` from the
request body.  `totpVerify secret code` abstracts
`speakeasy.totp.verify({secret, token: code, window: 2})` at the current
time.  A backup-code match is removed from the stored set (splice of the
first `indexOf` occurrence) before the success response is sent. -/
def verifyLogin (db : DB) (totpVerify : String → String → Bool)
    (userId : Nat) (code : String) : DB × VerifyLoginResponse :=
  match getPreferredUserSetting db userId "twoFactorSecret" "twofa_secret" with
  | none => (db, .invalidCode)
  | some secret =>
    if totpVerify secret code then (db, .verifiedTotp)
    else
      match getPreferredUserSetting db userId "twoFactorBackupCodes" "backup_codes" with
      | none => (db, .invalidCode)
      | some backupValue =>
        let backupCodes := parseBackupCodes backupValue
        match backupCodes.findIdx? (fun c => c == jsToUpper code) with
        | none => (db, .invalidCode)
        | some i =>
          let newCodes := backupCodes.eraseIdx i
          let newValue := serializeBackupCodes backupValue newCodes
          (updateBackupCodes db userId newValue, .verifiedBackup)

/-! ## Identity Federation Bridge: `GET /sso/callback` (sso.js lines 181-408) -/

/-- The hard-coded admin group name list (sso.js line 232). -/
def adminGroups : List String := ["admin", "administrators", "realm-management:manage-users"]

/-- The hard-coded poweruser group name list (sso.js line 233). -/
def powerUserGroups : List String := ["poweruser", "power-users", "managers"]

/-- The group-to-role mapping of the SSO callback (sso.js lines 230-242):
lowercase every claimed group, grant `admin` when some claimed group
contains some admin-group name as a substring, else `poweruser` on a
poweruser-group substring match, else `user`. -/
def mapGroupsToRole (groups : List String) : String :=
  let groupLower := groups.map jsToLower
  if groupLower.any (fun g => adminGroups.any (fun ag => strContains g ag)) then "admin"
  else if groupLower.any (fun g => powerUserGroups.any (fun pg => strContains g pg)) then
    "poweruser"
  else "user"

/-- `SELECT id FROM users WHERE username = ?` probed during SSO signup. -/
def usernameTaken (db : DB) (username : String) : Bool :=
  db.users.any (fun u => u.username == username)

/-- The collision loop of `checkAndCreateUser` (sso.js lines 311-326,
re-entered with `` `${baseUsername}${++counter}` ``): try
`base ++ toString counter`, incrementing until free.  `fuel` bounds the
recursion; with `fuel > db.users.length` the loop always finds a free name
before fuel runs out, so the fuel-exhaustion fallback is unreachable. -/
def findFreeUsernameAux (db : DB) (base : String) (counter : Nat) : Nat → String
  | 0 => base ++ toString counter
  | fuel + 1 =>
    let candidate := base ++ toString counter
    if usernameTaken db candidate then findFreeUsernameAux db base (counter + 1) fuel
    else candidate

/-- `checkAndCreateUser` username selection (sso.js lines 310-326): the
first probe uses the bare email local-part; `counter` starts at 1 and the
first collision retry is `` `${base}${++counter}` `` = `base2`. -/
def findFreeUsername (db : DB) (base : String) : String :=
  if usernameTaken db base then findFreeUsernameAux db base 2 (db.users.length + 1)
  else base

/-- `this.lastID` of the `INSERT`: the next AUTOINCREMENT id. -/
def nextUserId (db : DB) : Nat :=
  (db.users.map (·.id)).foldr max 0 + 1

/-- Outcome of the SSO callback upsert: the store, the id and username of
the logged-in account, and whether this was a signup. -/
structure SsoOutcome where
  db : DB
  userId : Nat
  username : String
  role : String
  isSignup : Bool
  deriving Repr, DecidableEq

/-- The account-resolution half of `GET /sso/callback` (sso.js lines
244-401), after claims extraction: derive the base username from the email
local-part, look the identity up by `sso_id`; on a hit update
display name, role, groups and activity; on a miss create the account
under the first free username. -/
def ssoCallbackUpsert (db : DB) (nowMs : Nat) (ssoId email displayName issuerUrl : String)
    (groups : List String) : SsoOutcome :=
  let role := mapGroupsToRole groups
  let baseUsername := ((strSplit email '@').headD "")
  match db.users.find? (fun u => u.ssoId == some ssoId) with
  | some existing =>
    let db1 := { db with
      users := db.users.map (fun u =>
        if u.id == existing.id then
          { u with lastLoginMs := some nowMs, loginCount := u.loginCount + 1,
                   displayName := some displayName, role := role, isActive := true }
        else u) }
    { db := db1, userId := existing.id, username := baseUsername, role := role,
      isSignup := false }
  | none =>
    let username := findFreeUsername db baseUsername
    let newId := nextUserId db
    let newUser : UserRow :=
      { id := newId, username := username, name := displayName,
        displayName := some displayName, email := email, passwordHash := none,
        role := role, isActive := true, createdAtMs := nowMs,
        ssoProvider := some issuerUrl, ssoId := some ssoId,
        lastLoginMs := some nowMs, loginCount := 1 }
    { db := { db with users := db.users ++ [newUser] }, userId := newId,
      username := username, role := role, isSignup := true }

/-! ## Check-ordering predicate for the login trace -/

/-- Holds of a check trace in which the first `passwordCompare`, if any,
comes after a `lockoutCheck`: walking the trace, reaching a
`lockoutCheck` first is success, reaching a `passwordCompare` first is
failure. -/
def lockoutPrecedesCompare : List Check → Bool
  | [] => true
  | .lockoutCheck :: _ => true
  | .passwordCompare :: _ => false
  | _ :: rest => lockoutPrecedesCompare rest

/-! ## Concrete fixtures used by the per-claim theorems -/

/-- A user enrolled in 2FA with a correct password: the login fixture for
the pending-verification-token claims. -/
def c2User : UserRow :=
  { id := 1, username := "bob", email := "bob@x.com",
    passwordHash := some (bcryptHash "Passw0rd"), createdAtMs := 5 }

/-- Store with `c2User` enrolled in 2FA (`twofa_enabled` flag and secret). -/
def c2Db : DB :=
  { users := [c2User],
    settings := [{ userId := some 1, key := "twofa_enabled", value := "true" },
                 { userId := some 1, key := "twoFactorSecret", value := "SECRET" }] }

/-- The 5-minute pending verification token `/login` issues for `c2Db` at
time 0 (auth.js lines 628-632). -/
def c2PendingToken : Jwt :=
  jwtSign { id := 1, email := some "bob@x.com" } jwtSecret 0 (5 * 60)

/-- A user at the lockout threshold (5 failures, last at 1000ms). -/
def c3User : UserRow :=
  { id := 3, username := "dan", email := "d@x", passwordHash := some (bcryptHash "Pw"),
    failedAttempts := 5, lastFailedAttemptMs := some 1000 }

/-- Store for the lockout fixture (default thresholds). -/
def c3Db : DB := { users := [c3User], settings := [] }

/-- A user with a known password, for the indistinguishability fixture. -/
def c4User : UserRow :=
  { id := 4, username := "eve", email := "eve@x.com",
    passwordHash := some (bcryptHash "Right1!") }

/-- Store for the indistinguishability fixture. -/
def c4Db : DB := { users := [c4User], settings := [] }

/-- Store with user 5 fully enrolled in 2FA through the confirm-enrollment
write (`twoFactorSecret`, `twoFactorBackupCodes`, `twofa_enabled`). -/
def c5Db : DB :=
  enable2FA
    { users := [{ id := 5, username := "fay", email := "f@x",
                  passwordHash := some (bcryptHash "Pw5!") }],
      settings := [] }
    5 "JBSWY3DPEHPK3PXP" ["AAAA1111", "BBBB2222"] 0

/-- A non-admin account created at time 5ms, before 2FA enforcement. -/
def c6User : UserRow := { id := 6, username := "gil", email := "g6@x", createdAtMs := 5 }

/-- Store where `enforce-2fa-all-users` was switched on at time 1000000ms —
after `c6User` was created — and `c6User` has no admin flag and no 2FA. -/
def c6Db : DB :=
  { users := [c6User],
    settings := [{ userId := none, key := "enforce-2fa-all-users", value := "true",
                   updatedAtMs := 1000000 }] }

/-- `c6Db` with the admin-set `2faEnrollmentRequired` flag for user 6. -/
def c6DbFlagged : DB :=
  { users := [c6User],
    settings := [{ userId := none, key := "enforce-2fa-all-users", value := "true",
                   updatedAtMs := 1000000 },
                 { userId := some 6, key := "2faEnrollmentRequired", value := "true",
                   updatedAtMs := 1000001 }] }

/-- Store with user 7 enrolled: secret plus two JSON-stored backup codes. -/
def c7Db : DB :=
  { users := [{ id := 7, username := "hal", email := "h@x" }],
    settings := [{ userId := some 7, key := "twoFactorSecret", value := "S7", updatedAtMs := 0 },
                 { userId := some 7, key := "twoFactorBackupCodes",
                   value := "[\"AAAA1111\",\"BBBB2222\"]", updatedAtMs := 0 }] }

/-- A TOTP verifier accepting exactly one (secret, code) pair, standing in
for `speakeasy.totp.verify` at a fixed instant. -/
def c10Totp (secret code : String) : Bool :=
  secret == "S10" && code == "123456"

/-- Store with user 10 enrolled: secret and one comma-format backup code. -/
def c10Db : DB :=
  { users := [{ id := 10, username := "ivy", email := "i@x" }],
    settings := [{ userId := some 10, key := "twoFactorSecret", value := "S10", updatedAtMs := 0 },
                 { userId := some 10, key := "backup_codes", value := "CCCC3333,DDDD4444",
                   updatedAtMs := 0 }] }

/-- Empty store for the SSO first-login fixture. -/
def c9Db0 : DB := { users := [], settings := [] }

/-- First SSO login of `alice@example.com` under external subject `sub-1`. -/
def c9Out1 : SsoOutcome :=
  ssoCallbackUpsert c9Db0 0 "sub-1" "alice@example.com" "Alice One" "https://idp.example"
    ["users"]

/-- Second, distinct external identity (`sub-2`) with the same email
local-part, arriving after the first signup. -/
def c9Out2 : SsoOutcome :=
  ssoCallbackUpsert c9Out1.db 5 "sub-2" "alice@example.com" "Alice Two" "https://idp.example"
    ["users"]

/-! ## Helper lemmas -/

/-- Deleting a user makes the id-lookup fail. -/
theorem dbGetUserById_deleteUser (db : DB) (uid : Nat) :
    dbGetUserById (deleteUser db uid) uid = none := by
  apply List.find?_eq_none.mpr
  intro u hu
  have h := List.of_mem_filter hu
  simp only [Bool.not_eq_true'] at h
  simp [h]

/-! ## C1 -/

/-- C1: for every request bearing a session token whose signature and
expiry are valid (`jwtVerify` succeeds), `authenticateToken` re-resolves
the token's embedded user id against the `users` table and answers
`userNotFound` when the record is missing and `accountDisabled` when its
active flag is false; in particular, deleting the user after issuance
makes the very next authorized request fail with `userNotFound`. -/
theorem c1_authz_rechecks_credential_store (db : DB) (nowMs : Nat) (ip : String)
    (t : Jwt) (c : Claims) (hver : jwtVerify t jwtSecret nowMs = some c) :
    (dbGetUserById db c.id = none →
      authenticateToken db nowMs ip (some t) = .userNotFound) ∧
    (∀ u, dbGetUserById db c.id = some u → u.isActive = false →
      authenticateToken db nowMs ip (some t) = .accountDisabled) ∧
    authenticateToken (deleteUser db c.id) nowMs ip (some t) = .userNotFound := by
  refine ⟨fun hnone => ?_, fun u hu hact => ?_, ?_⟩
  · simp [authenticateToken, hver, hnone]
  · simp [authenticateToken, hver, hu, hact]
  · simp [authenticateToken, hver, dbGetUserById_deleteUser]

/-- Witness for C1 at a concrete store, token and deletion. -/
theorem c1_authz_rechecks_credential_store_witness :
    (authenticateToken { users := [], settings := [] } 0 "9.9.9.9"
        (some { claims := { id := 7 }, secret := jwtSecret, expMs := 1000 }) =
      .userNotFound) ∧
    (authenticateToken
        { users := [{ id := 7, username := "gone", email := "g@x", isActive := false }],
          settings := [] } 0 "9.9.9.9"
        (some { claims := { id := 7 }, secret := jwtSecret, expMs := 1000 }) =
      .accountDisabled) ∧
    (authenticateToken
        (deleteUser
          { users := [{ id := 7, username := "gone", email := "g@x" }], settings := [] } 7)
        0 "9.9.9.9"
        (some { claims := { id := 7 }, secret := jwtSecret, expMs := 1000 }) =
      .userNotFound) := by
  have h1 := c1_authz_rechecks_credential_store
    { users := [], settings := [] } 0 "9.9.9.9"
    { claims := { id := 7 }, secret := jwtSecret, expMs := 1000 } { id := 7 }
    (by decide)
  have h2 := c1_authz_rechecks_credential_store
    { users := [{ id := 7, username := "gone", email := "g@x", isActive := false }],
      settings := [] } 0 "9.9.9.9"
    { claims := { id := 7 }, secret := jwtSecret, expMs := 1000 } { id := 7 }
    (by decide)
  have h3 := c1_authz_rechecks_credential_store
    { users := [{ id := 7, username := "gone", email := "g@x" }], settings := [] }
    0 "9.9.9.9"
    { claims := { id := 7 }, secret := jwtSecret, expMs := 1000 } { id := 7 }
    (by decide)
  exact ⟨h1.1 (by decide),
    h2.2.1 { id := 7, username := "gone", email := "g@x", isActive := false }
      (by decide) (by decide),
    h3.2.2⟩

/-! ## C2 -/

/-- Lookups commute with a `users`-table update that rewrites rows in
place without changing ids. -/
theorem dbGetUserById_map_preserving (db : DB) (f : UserRow → UserRow)
    (hid : ∀ u, (f u).id = u.id) (i : Nat) :
    dbGetUserById { db with users := db.users.map f } i =
      (dbGetUserById db i).map f := by
  unfold dbGetUserById
  simp only
  have hp : ((fun u : UserRow => u.id == i) ∘ f) = (fun u : UserRow => u.id == i) := by
    funext u
    simp [Function.comp, hid]
  rw [List.find?_map, hp]

/-- C2 counterexample: the pending verification token issued by a
successful password check is exchanged at `/2fa-complete` for a full
session token, and presenting the *same* pending token again immediately
afterwards yields a *second* full session token — the exchange is not
one-shot, contradicting the claim. -/
theorem c2_exchange_not_one_shot_counterexample :
    (login c2Db 0 "bob" "Passw0rd").2.1 = .requiresTwoFactor 1 c2PendingToken ∧
    (twofaComplete c2Db 10000 "1.2.3.4" (some c2PendingToken)).2 =
      .success 1 (jwtSign (fullClaims c2User) jwtSecret 10000 (24 * 3600)) ∧
    (twofaComplete (twofaComplete c2Db 10000 "1.2.3.4" (some c2PendingToken)).1
        20000 "1.2.3.4" (some c2PendingToken)).2 =
      .success 1 (jwtSign (fullClaims c2User) jwtSecret 20000 (24 * 3600)) := by
  decide

/-- C2 amended: a pending verification token, once exchanged for a full
session token, CAN be exchanged again — `/2fa-complete` records nothing
about presented tokens, so every presentation within the token's validity
window against a store whose referent user is present and active yields a
further full session token; only expiry bounds reuse. -/
theorem c2_pending_token_reusable (db : DB) (t1 t2 : Nat) (ip : String)
    (tok : Jwt) (c : Claims) (u : UserRow)
    (h1 : jwtVerify tok jwtSecret t1 = some c)
    (h2 : jwtVerify tok jwtSecret t2 = some c)
    (hu : dbGetUserById db c.id = some u)
    (hact : u.isActive = true)
    (hip : getSystemSetting db "ip-whitelist" ≠ some "true") :
    ∃ tok1 tok2 db1,
      twofaComplete db t1 ip (some tok) = (db1, .success u.id tok1) ∧
      (twofaComplete db1 t2 ip (some tok)).2 = .success u.id tok2 := by
  have hipb : (getSystemSetting db "ip-whitelist" == some "true") = false := by
    rw [beq_eq_false_iff_ne]
    exact hip
  have hauth1 : authenticateToken db t1 ip (some tok) = .ok c := by
    simp [authenticateToken, h1, hu, hact, hipb]
  have hstep : twofaComplete db t1 ip (some tok) =
      (bumpLoginStats db u.id t1, .success u.id (jwtSign (fullClaims u) jwtSecret t1 (24 * 3600))) := by
    simp [twofaComplete, hauth1, hu]
  set f : UserRow → UserRow := fun x =>
    if x.id == u.id then { x with lastLoginMs := some t1, loginCount := x.loginCount + 1 }
    else x with hf
  have hid : ∀ x, (f x).id = x.id := by
    intro x
    rw [hf]
    by_cases hc : x.id == u.id <;> simp [hc]
  have hu2 : dbGetUserById (bumpLoginStats db u.id t1) c.id = some (f u) := by
    show dbGetUserById { db with users := db.users.map f } c.id = some (f u)
    rw [dbGetUserById_map_preserving db f hid c.id, hu, Option.map_some']
  have hfu : f u = { u with lastLoginMs := some t1, loginCount := u.loginCount + 1 } := by
    rw [hf]
    simp
  have hact2 : (f u).isActive = true := by
    rw [hfu]
    exact hact
  have hsets : getSystemSetting (bumpLoginStats db u.id t1) "ip-whitelist" =
      getSystemSetting db "ip-whitelist" := rfl
  have hipb2 :
      (getSystemSetting (bumpLoginStats db u.id t1) "ip-whitelist" == some "true") = false := by
    rw [hsets]
    exact hipb
  have hauth2 : authenticateToken (bumpLoginStats db u.id t1) t2 ip (some tok) = .ok c := by
    simp [authenticateToken, h2, hu2, hact2, hipb2]
  have hid2 : (f u).id = u.id := hid u
  have hstep2 : (twofaComplete (bumpLoginStats db u.id t1) t2 ip (some tok)).2 =
      .success u.id (jwtSign (fullClaims (f u)) jwtSecret t2 (24 * 3600)) := by
    simp [twofaComplete, hauth2, hu2, hid2]
  exact ⟨jwtSign (fullClaims u) jwtSecret t1 (24 * 3600),
    jwtSign (fullClaims (f u)) jwtSecret t2 (24 * 3600),
    bumpLoginStats db u.id t1, hstep, hstep2⟩

/-- Witness for the amended C2 theorem at the concrete fixture. -/
theorem c2_pending_token_reusable_witness :
    ∃ tok1 tok2 db1,
      twofaComplete c2Db 10000 "1.2.3.4" (some c2PendingToken) = (db1, .success 1 tok1) ∧
      (twofaComplete db1 20000 "1.2.3.4" (some c2PendingToken)).2 = .success 1 tok2 := by
  have h := c2_pending_token_reusable c2Db 10000 20000 "1.2.3.4" c2PendingToken
    { id := 1, email := some "bob@x.com" } c2User
    (by decide) (by decide) (by decide) (by decide) (by decide)
  exact h

/-! ## C3 -/

/-- Looking up the id just reset by `resetFailedAttempts` returns the row
with a zeroed counter. -/
theorem dbGetUserById_resetFailedAttempts (db : DB) (uid : Nat) (u : UserRow)
    (hu : dbGetUserById db uid = some u) :
    dbGetUserById (resetFailedAttempts db uid) uid =
      some { u with failedAttempts := 0, lastFailedAttemptMs := none } := by
  have hf : ∀ x : UserRow,
      ((fun x : UserRow =>
        if x.id == uid then { x with failedAttempts := 0, lastFailedAttemptMs := none }
        else x) x).id = x.id := by
    intro x
    by_cases hc : x.id == uid <;> simp [hc]
  have hmap : dbGetUserById (resetFailedAttempts db uid) uid =
      (dbGetUserById db uid).map (fun x : UserRow =>
        if x.id == uid then { x with failedAttempts := 0, lastFailedAttemptMs := none }
        else x) :=
    dbGetUserById_map_preserving db _ hf uid
  have hu' : db.users.find? (fun x => x.id == uid) = some u := hu
  have hbeq : (u.id == uid) = true := by
    have h := List.find?_some hu'
    exact h
  rw [hmap, hu, Option.map_some']
  simp [hbeq]

/-- `checkAccountLockout` never touches the `settings` table. -/
theorem checkAccountLockout_settings (db : DB) (nowMs uid : Nat) :
    ((checkAccountLockout db nowMs uid).1).settings = db.settings := by
  simp only [checkAccountLockout]
  cases hfind : dbGetUserById db uid with
  | none => rfl
  | some u =>
    simp only
    split
    · rfl
    · split
      · rfl
      · rfl

/-- C3: with the failure counter at or above `max-login-attempts`, a login
attempt — whatever the password — is rejected `accountLocked` while less
than `lockout-duration` seconds have passed since the last failure; once
the duration has elapsed the lockout check itself zeroes the counter, and
a correct-password login (active account, no 2FA in play) succeeds. -/
theorem c3_lockout_blocks_then_resets (db : DB) (nowMs : Nat) (ident pw : String)
    (u : UserRow)
    (hne : ident ≠ "") (hpw : pw ≠ "")
    (hu : dbGetUserByIdentifier db ident = some u)
    (hid : dbGetUserById db u.id = some u)
    (hcount : getNatSetting db "max-login-attempts" 5 ≤ u.failedAttempts) :
    (((nowMs : Int) - ((u.lastFailedAttemptMs.getD 0 : Nat) : Int) <
        (getNatSetting db "lockout-duration" 3600 : Int) * 1000) →
      ∃ untilMs mins, (login db nowMs ident pw).2.1 = .accountLocked untilMs mins) ∧
    (((getNatSetting db "lockout-duration" 3600 : Int) * 1000 ≤
        (nowMs : Int) - ((u.lastFailedAttemptMs.getD 0 : Nat) : Int)) →
      ((checkAccountLockout db nowMs u.id).2 = .notLocked ∧
        dbGetUserById (checkAccountLockout db nowMs u.id).1 u.id =
          some { u with failedAttempts := 0, lastFailedAttemptMs := none }) ∧
      (bcryptCompare pw u.passwordHash = some true →
        u.isActive = true →
        getSystemSetting db "enforce-2fa-all-users" ≠ some "true" →
        getSystemSetting db "enforce-2fa-admins-only" ≠ some "true" →
        getUserSetting db u.id "twofa_enabled" ≠ some "true" →
        ∃ tok, (login db nowMs ident pw).2.1 = .success u.id tok)) := by
  have hfields : (ident == "" || pw == "") = false := by
    simp [hne, hpw]
  have husers : db.users.isEmpty = false := by
    cases hl : db.users with
    | nil =>
      rw [dbGetUserByIdentifier, hl] at hu
      simp at hu
    | cons a l => simp
  have hnotlt : ¬(u.failedAttempts < getNatSetting db "max-login-attempts" 5) :=
    Nat.not_lt.mpr hcount
  constructor
  · intro hwithin
    have hlock : checkAccountLockout db nowMs u.id =
        (db, .locked ((u.lastFailedAttemptMs.getD 0) +
            (getNatSetting db "lockout-duration" 3600) * 1000)
          ((((getNatSetting db "lockout-duration" 3600 : Int) * 1000 -
              ((nowMs : Int) - ((u.lastFailedAttemptMs.getD 0 : Nat) : Int)) + 59999) /
            60000).toNat)) := by
      simp only [checkAccountLockout, hid]
      rw [if_neg hnotlt, if_pos hwithin]
    refine ⟨(u.lastFailedAttemptMs.getD 0) + (getNatSetting db "lockout-duration" 3600) * 1000,
      (((getNatSetting db "lockout-duration" 3600 : Int) * 1000 -
          ((nowMs : Int) - ((u.lastFailedAttemptMs.getD 0 : Nat) : Int)) + 59999) /
        60000).toNat, ?_⟩
    simp only [login, hfields, Bool.false_eq_true, if_false, husers, hu, hlock]
  · intro helapsed
    have hnotwithin : ¬((nowMs : Int) - ((u.lastFailedAttemptMs.getD 0 : Nat) : Int) <
        (getNatSetting db "lockout-duration" 3600 : Int) * 1000) :=
      not_lt.mpr helapsed
    have hlock : checkAccountLockout db nowMs u.id =
        (resetFailedAttempts db u.id, .notLocked) := by
      simp only [checkAccountLockout, hid]
      rw [if_neg hnotlt, if_neg hnotwithin]
    refine ⟨⟨by rw [hlock], ?_⟩, ?_⟩
    · rw [hlock]
      exact dbGetUserById_resetFailedAttempts db u.id u hid
    · intro hbc hact hfA hfB htfa
      have hfAb : (getSystemSetting db "enforce-2fa-all-users" == some "true") = false := by
        rw [beq_eq_false_iff_ne]
        exact hfA
      have hfBb : (getSystemSetting db "enforce-2fa-admins-only" == some "true") = false := by
        rw [beq_eq_false_iff_ne]
        exact hfB
      have htfab : (getUserSetting db u.id "twofa_enabled" == some "true") = false := by
        rw [beq_eq_false_iff_ne]
        exact htfa
      set db2 := resetFailedAttempts (resetFailedAttempts db u.id) u.id with hdb2
      have hreq : (is2FARequired db2 u).1 = false := by
        have hsame : is2FARequired db2 u = is2FARequired db u := rfl
        rw [hsame]
        simp only [is2FARequired, hfAb, hfBb]
        simp
      have hpair0 : is2FARequired db2 u = (false, (is2FARequired db2 u).2) := by
        rw [← hreq]
      obtain ⟨e, hpair⟩ : ∃ e, is2FARequired db2 u = (false, e) := ⟨_, hpair0⟩
      have htfa2 : (getUserSetting db2 u.id "twofa_enabled" == some "true") = false := htfab
      refine ⟨jwtSign (fullClaims u) jwtSecret nowMs (getNatSetting db2 "session-timeout" 3600),
        ?_⟩
      simp only [login, hfields, Bool.false_eq_true, if_false, husers, hu, hlock, hbc,
        hact, hpair, htfa2]
      simp [hact, htfa2]

/-- Witness for C3: at 2000ms (inside the 3600s window) the correct
password is rejected `accountLocked`; at 4000000ms the same credentials
succeed. -/
theorem c3_lockout_blocks_then_resets_witness :
    (∃ untilMs mins, (login c3Db 2000 "dan" "Pw").2.1 = .accountLocked untilMs mins) ∧
    (∃ tok, (login c3Db 4000000 "dan" "Pw").2.1 = .success 3 tok) := by
  have h1 := c3_lockout_blocks_then_resets c3Db 2000 "dan" "Pw" c3User
    (by decide) (by decide) (by decide) (by decide) (by decide)
  have h2 := c3_lockout_blocks_then_resets c3Db 4000000 "dan" "Pw" c3User
    (by decide) (by decide) (by decide) (by decide) (by decide)
  exact ⟨h1.1 (by decide),
    (h2.2 (by decide)).2 (by decide) (by decide) (by decide) (by decide) (by decide)⟩

/-! ## C4 -/

/-- C4: on every login request the lockout check precedes the password
comparison in the emitted check trace, and the rejection for an identifier
matching no account is the very same `invalidCredentials` response as the
rejection for an existing (unlocked) account with a wrong password — the
response constructor (status 401, message
`'Invalid username, email or password'`) does not reveal which field was
wrong. -/
theorem c4_generic_rejection_and_check_order :
    (∀ (db : DB) (nowMs : Nat) (ident pw : String),
      lockoutPrecedesCompare (login db nowMs ident pw).2.2 = true) ∧
    (∀ (db1 : DB) (now1 : Nat) (id1 pw1 : String) (db2 : DB) (now2 : Nat)
        (id2 pw2 : String) (u : UserRow) (dbx : DB),
      db1.users.isEmpty = false →
      id1 ≠ "" → pw1 ≠ "" → id2 ≠ "" → pw2 ≠ "" →
      dbGetUserByIdentifier db1 id1 = none →
      dbGetUserByIdentifier db2 id2 = some u →
      checkAccountLockout db2 now2 u.id = (dbx, .notLocked) →
      bcryptCompare pw2 u.passwordHash = some false →
      (login db1 now1 id1 pw1).2.1 = .invalidCredentials ∧
      (login db2 now2 id2 pw2).2.1 = .invalidCredentials) := by
  constructor
  · intro db nowMs ident pw
    unfold login
    repeat' (first | split | dsimp only)
    all_goals rfl
  · intro db1 now1 id1 pw1 db2 now2 id2 pw2 u dbx hne1 hi1 hp1 hi2 hp2 hnone hsome hlock hbc
    have hf1 : (id1 == "" || pw1 == "") = false := by simp [hi1, hp1]
    have hf2 : (id2 == "" || pw2 == "") = false := by simp [hi2, hp2]
    have hne2 : db2.users.isEmpty = false := by
      cases hl : db2.users with
      | nil =>
        rw [dbGetUserByIdentifier, hl] at hsome
        simp at hsome
      | cons a l => simp
    constructor
    · simp only [login, hf1, Bool.false_eq_true, if_false, hne1, hnone]
    · simp only [login, hf2, Bool.false_eq_true, if_false, hne2, hsome, hlock, hbc]

/-- Witness for C4: the one-user fixture; `"nobody"` matches no account,
`"eve"` exists with a different password; both rejections are the same
`invalidCredentials`, and the trace of the real run is well-ordered. -/
theorem c4_generic_rejection_and_check_order_witness :
    lockoutPrecedesCompare (login c4Db 0 "eve" "Wrong1!").2.2 = true ∧
    ((login c4Db 0 "nobody" "x").2.1 = .invalidCredentials ∧
      (login c4Db 0 "eve" "Wrong1!").2.1 = .invalidCredentials) :=
  ⟨c4_generic_rejection_and_check_order.1 c4Db 0 "eve" "Wrong1!",
    c4_generic_rejection_and_check_order.2 c4Db 0 "nobody" "x" c4Db 0 "eve" "Wrong1!"
      c4User c4Db (by decide) (by decide) (by decide) (by decide) (by decide)
      (by decide) (by decide) (by decide) (by decide)⟩

/-! ## C5 -/

/-- C5 (code bug): disabling 2FA does NOT remove the enrollment flag
together with the secret and backup codes.  Enrollment stores the flag
under the key `twofa_enabled`, but `POST /2fa/disable` deletes the key
`twoFactorEnabled` — a key nothing in the codebase ever writes — so after
a disable the secret and backup codes are gone while `twofa_enabled`
remains `'true'`: login still demands a second factor, and a subsequent
login-verify answers the generic 400 `'Invalid TOTP code'` (there is no
"2FA not enrolled" response in `/2fa/verify-login` at all, as the
exhaustive last conjunct records). -/
theorem c5_disable_leaves_enrollment_flag :
    (getUserSetting c5Db 5 "twofa_enabled" = some "true" ∧
      getUserSetting c5Db 5 "twoFactorSecret" = some "JBSWY3DPEHPK3PXP") ∧
    (getUserSetting (disable2FA c5Db 5) 5 "twoFactorSecret" = none ∧
      getUserSetting (disable2FA c5Db 5) 5 "twoFactorBackupCodes" = none ∧
      getUserSetting (disable2FA c5Db 5) 5 "twofa_enabled" = some "true") ∧
    (∃ tok, (login (disable2FA c5Db 5) 0 "fay" "Pw5!").2.1 = .requiresTwoFactor 5 tok) ∧
    (verifyLogin (disable2FA c5Db 5) (fun _ _ => true) 5 "AAAA1111").2 = .invalidCode ∧
    (∀ r : VerifyLoginResponse,
      r = .invalidCode ∨ r = .verifiedTotp ∨ r = .verifiedBackup) := by
  refine ⟨by decide, by decide, ⟨jwtSign { id := 5, email := some "f@x" } jwtSecret 0 (5 * 60),
    by decide⟩, by decide, ?_⟩
  intro r
  cases r
  · exact Or.inl rfl
  · exact Or.inr (Or.inl rfl)
  · exact Or.inr (Or.inr rfl)

/-! ## C6 -/

/-- C6 (code bug): the forced-enrollment branch of `is2FARequired` never
fires on account age.  With enforcement for all users switched on at
1000000ms and an unenrolled, unflagged account created at 5ms — squarely
predating the policy — the evaluation still reports
`enrollmentRequired = false` with the full 7-day grace period, because the
code reads `enforcementRow.created_at` from a row the SQL only gave an
`updated_at` column (auth.js lines 213 vs 225), so the predates comparison
is against an Invalid Date and is always false.  Only the explicit
administrator flag (second conjunct) can force enrollment. -/
theorem c6_predating_account_not_forced :
    (latestTrueEnforcementRow c6Db =
        some { userId := none, key := "enforce-2fa-all-users", value := "true",
               updatedAtMs := 1000000 } ∧
      c6User.createdAtMs < 1000000 ∧
      getUserSetting c6Db 6 "2faEnrollmentRequired" = none ∧
      is2FARequired c6Db c6User =
        (true, { required := true, enabled := false, gracePeriod := 7,
                 enrollmentRequired := false })) ∧
    is2FARequired c6DbFlagged c6User =
      (true, { required := true, enabled := false, gracePeriod := 7,
               enrollmentRequired := true }) := by
  decide

/-! ## C7 -/

/-- `findIdx?` finds nothing for an absent element, from any start
index. -/
theorem findIdx?_beq_eq_none_of_not_mem (a : String) :
    ∀ (l : List String) (i : Nat), a ∉ l →
      List.findIdx? (fun c => c == a) l i = none := by
  intro l
  induction l with
  | nil =>
    intro i _
    exact List.findIdx?_nil
  | cons b t ih =>
    intro i hmem
    rw [List.findIdx?_cons]
    have hb : (b == a) = false := by
      simp only [beq_eq_false_iff_ne]
      intro hba
      exact hmem (hba ▸ List.mem_cons_self b t)
    rw [hb]
    simp only [Bool.false_eq_true, if_false]
    exact ih (i + 1) (fun h => hmem (List.mem_cons_of_mem b h))

/-- A successful `findIdx?` never returns an index below its start
index. -/
theorem findIdx?_start_le (p : String → Bool) :
    ∀ (l : List String) (i j : Nat), List.findIdx? p l i = some j → i ≤ j := by
  intro l
  induction l with
  | nil =>
    intro i j h
    rw [List.findIdx?_nil] at h
    exact absurd h (by simp)
  | cons b t ih =>
    intro i j h
    rw [List.findIdx?_cons] at h
    by_cases hb : p b = true
    · rw [if_pos hb] at h
      exact Nat.le_of_eq (Option.some.inj h)
    · rw [if_neg hb] at h
      exact Nat.le_of_succ_le (ih (i + 1) j h)

/-- Erasing the index `findIdx?` located removes the sole occurrence: the
count of the element drops to zero. -/
theorem count_eraseIdx_findIdx?_eq_zero (a : String) :
    ∀ (l : List String) (i j : Nat),
      List.findIdx? (fun c => c == a) l i = some j → l.count a = 1 →
      (l.eraseIdx (j - i)).count a = 0 := by
  intro l
  induction l with
  | nil =>
    intro i j h _
    rw [List.findIdx?_nil] at h
    exact absurd h (by simp)
  | cons b t ih =>
    intro i j hfind hcount
    rw [List.findIdx?_cons] at hfind
    rw [List.count_cons] at hcount
    by_cases hb : (b == a) = true
    · rw [if_pos hb] at hfind
      have hj : j = i := (Option.some.inj hfind).symm
      subst hj
      rw [Nat.sub_self, List.eraseIdx_cons_zero]
      rw [if_pos hb] at hcount
      omega
    · rw [if_neg hb] at hfind
      have hle := findIdx?_start_le (fun c => c == a) t (i + 1) j hfind
      have hsub : j - i = (j - (i + 1)) + 1 := by omega
      rw [hsub, List.eraseIdx_cons_succ, List.count_cons]
      rw [if_neg hb] at hcount ⊢
      have := ih (i + 1) j hfind (by omega)
      omega

/-- `find?` over an in-place row update that preserves the looked-up
fields. -/
theorem find?_map_of_pred_invariant (l : List SettingRow) (p : SettingRow → Bool)
    (f : SettingRow → SettingRow) (hp : ∀ r, p (f r) = p r) :
    (l.map f).find? p = (l.find? p).map f := by
  induction l with
  | nil => rfl
  | cons r t ih =>
    rw [List.map_cons]
    by_cases hc : p r = true
    · rw [List.find?_cons_of_pos _ (by rw [hp]; exact hc),
        List.find?_cons_of_pos _ hc, Option.map_some']
    · rw [List.find?_cons_of_neg _ (by rw [hp]; exact hc),
        List.find?_cons_of_neg _ hc, ih]

/-- What any `getUserSetting` lookup evaluates to after the backup-code
`UPDATE`: the pre-update row's value, replaced by the new serialization
exactly when the row carried one of the two backup-code keys for the
updated user. -/
theorem getUserSetting_updateBackupCodes (db : DB) (uid uid2 : Nat) (nv key : String) :
    getUserSetting (updateBackupCodes db uid2 nv) uid key =
      (db.settings.find? (fun r => r.userId == some uid && r.key == key)).map
        (fun r =>
          if r.userId == some uid2 &&
              (r.key == "backup_codes" || r.key == "twoFactorBackupCodes")
          then nv else r.value) := by
  have hp : ∀ r : SettingRow,
      (fun r : SettingRow => r.userId == some uid && r.key == key)
        ((fun r : SettingRow =>
          if r.userId == some uid2 &&
              (r.key == "backup_codes" || r.key == "twoFactorBackupCodes")
          then { r with value := nv } else r) r) =
      (fun r : SettingRow => r.userId == some uid && r.key == key) r := by
    intro r
    simp only
    by_cases hc : (r.userId == some uid2 &&
        (r.key == "backup_codes" || r.key == "twoFactorBackupCodes")) = true <;>
      simp [hc]
  unfold getUserSetting updateBackupCodes
  simp only
  rw [find?_map_of_pred_invariant db.settings _ _ hp]
  cases hfind : db.settings.find? (fun r => r.userId == some uid && r.key == key) with
  | none => rfl
  | some r0 =>
    simp only [Option.map_some']
    by_cases hc : (r0.userId == some uid2 &&
        (r0.key == "backup_codes" || r0.key == "twoFactorBackupCodes")) = true
    · rw [if_pos hc, if_pos hc]
    · rw [if_neg hc, if_neg hc]

/-- The backup-code `UPDATE` preserves every per-user setting other than
the two backup-code keys. -/
theorem getUserSetting_updateBackupCodes_other (db : DB) (uid uid2 : Nat)
    (nv key : String) (hk1 : key ≠ "backup_codes") (hk2 : key ≠ "twoFactorBackupCodes") :
    getUserSetting (updateBackupCodes db uid2 nv) uid key = getUserSetting db uid key := by
  rw [getUserSetting_updateBackupCodes]
  unfold getUserSetting
  cases hfind : db.settings.find? (fun r => r.userId == some uid && r.key == key) with
  | none => rfl
  | some r0 =>
    have hpr := List.find?_some hfind
    have hkey : r0.key = key := by
      have h := (Bool.and_eq_true _ _).mp hpr
      exact eq_of_beq h.2
    have h1 : (r0.key == "backup_codes") = false := by
      rw [hkey]
      simp only [beq_eq_false_iff_ne]
      exact hk1
    have h2 : (r0.key == "twoFactorBackupCodes") = false := by
      rw [hkey]
      simp only [beq_eq_false_iff_ne]
      exact hk2
    simp only [Option.map_some']
    rw [if_neg (by simp [h1, h2])]

/-- The backup-code `UPDATE` rewrites the value of a present backup-code
row to the new serialization. -/
theorem getUserSetting_updateBackupCodes_self (db : DB) (uid : Nat) (nv key : String)
    (hk : key = "backup_codes" ∨ key = "twoFactorBackupCodes") (v : String)
    (hv : getUserSetting db uid key = some v) :
    getUserSetting (updateBackupCodes db uid nv) uid key = some nv := by
  rw [getUserSetting_updateBackupCodes]
  obtain ⟨r0, hfind⟩ : ∃ r0,
      db.settings.find? (fun r => r.userId == some uid && r.key == key) = some r0 := by
    unfold getUserSetting at hv
    cases hfind : db.settings.find? (fun r => r.userId == some uid && r.key == key) with
    | none => rw [hfind] at hv; exact absurd hv (by simp)
    | some r0 => exact ⟨r0, rfl⟩
  have hpr := List.find?_some hfind
  have huid : (r0.userId == some uid) = true := ((Bool.and_eq_true _ _).mp hpr).1
  have hkey : r0.key = key := eq_of_beq ((Bool.and_eq_true _ _).mp hpr).2
  rw [hfind, Option.map_some']
  rw [if_pos (by rw [huid, hkey]; rcases hk with h | h <;> simp [h])]

/-- After the backup-code `UPDATE`, the preferred backup-row lookup yields
the new serialization (whichever of the two keys held the set before). -/
theorem getPreferred_backup_after_update (db : DB) (uid : Nat) (nv bval : String)
    (h : getPreferredUserSetting db uid "twoFactorBackupCodes" "backup_codes" = some bval) :
    getPreferredUserSetting (updateBackupCodes db uid nv) uid
      "twoFactorBackupCodes" "backup_codes" = some nv := by
  unfold getPreferredUserSetting at h ⊢
  cases hpref : getUserSetting db uid "twoFactorBackupCodes" with
  | some v =>
    rw [getUserSetting_updateBackupCodes_self db uid nv "twoFactorBackupCodes"
      (Or.inr rfl) v hpref]
  | none =>
    rw [hpref] at h
    have hpref2 : getUserSetting (updateBackupCodes db uid nv) uid "twoFactorBackupCodes" =
        none := by
      rw [getUserSetting_updateBackupCodes]
      unfold getUserSetting at hpref
      cases hfind : db.settings.find?
          (fun r => r.userId == some uid && r.key == "twoFactorBackupCodes") with
      | none => rfl
      | some r0 => rw [hfind] at hpref; exact absurd hpref (by simp)
    rw [hpref2]
    exact getUserSetting_updateBackupCodes_self db uid nv "backup_codes" (Or.inl rfl) bval h

/-- The backup-code `UPDATE` never touches the secret rows. -/
theorem getPreferred_secret_after_update (db : DB) (uid uid2 : Nat) (nv : String) :
    getPreferredUserSetting (updateBackupCodes db uid2 nv) uid
      "twoFactorSecret" "twofa_secret" =
    getPreferredUserSetting db uid "twoFactorSecret" "twofa_secret" := by
  unfold getPreferredUserSetting
  rw [getUserSetting_updateBackupCodes_other db uid uid2 nv "twoFactorSecret"
      (by decide) (by decide),
    getUserSetting_updateBackupCodes_other db uid uid2 nv "twofa_secret"
      (by decide) (by decide)]

/-- C7: a backup code occurring exactly once in a user's stored set is
consumed by a successful login-verify: the state returned with the
`verifiedBackup` response already has the code spliced out of the stored
set, its count drops to zero, and a second login-verify with the same code
against that state answers `invalidCode`.  (The code is presented in any
case; matching is against its uppercasing, and `totpVerify` rejecting it
models a backup code that is not a currently valid TOTP code.) -/
theorem c7_backup_code_consumed_once (db : DB) (totpVerify : String → String → Bool)
    (uid : Nat) (code s bval : String) (i : Nat)
    (hs : getPreferredUserSetting db uid "twoFactorSecret" "twofa_secret" = some s)
    (htotp : totpVerify s code = false)
    (hb : getPreferredUserSetting db uid "twoFactorBackupCodes" "backup_codes" = some bval)
    (hfind : (parseBackupCodes bval).findIdx? (fun c => c == jsToUpper code) = some i)
    (hcount : (parseBackupCodes bval).count (jsToUpper code) = 1)
    (hround : parseBackupCodes
        (serializeBackupCodes bval ((parseBackupCodes bval).eraseIdx i)) =
      (parseBackupCodes bval).eraseIdx i) :
    (verifyLogin db totpVerify uid code).2 = .verifiedBackup ∧
    (verifyLogin db totpVerify uid code).1 =
      updateBackupCodes db uid
        (serializeBackupCodes bval ((parseBackupCodes bval).eraseIdx i)) ∧
    ((parseBackupCodes bval).eraseIdx i).count (jsToUpper code) = 0 ∧
    (verifyLogin (verifyLogin db totpVerify uid code).1 totpVerify uid code).2 =
      .invalidCode := by
  have hstep : verifyLogin db totpVerify uid code =
      (updateBackupCodes db uid
        (serializeBackupCodes bval ((parseBackupCodes bval).eraseIdx i)),
       .verifiedBackup) := by
    unfold verifyLogin
    rw [hs]
    simp only [htotp, Bool.false_eq_true, if_false]
    rw [hb]
    simp [hfind]
  have hzero : ((parseBackupCodes bval).eraseIdx i).count (jsToUpper code) = 0 := by
    have h := count_eraseIdx_findIdx?_eq_zero (jsToUpper code) (parseBackupCodes bval) 0 i
      hfind hcount
    simpa using h
  refine ⟨by rw [hstep], by rw [hstep], hzero, ?_⟩
  rw [hstep]
  set nv := serializeBackupCodes bval ((parseBackupCodes bval).eraseIdx i) with hnv
  have hs2 : getPreferredUserSetting (updateBackupCodes db uid nv) uid
      "twoFactorSecret" "twofa_secret" = some s := by
    rw [getPreferred_secret_after_update, hs]
  have hb2 : getPreferredUserSetting (updateBackupCodes db uid nv) uid
      "twoFactorBackupCodes" "backup_codes" = some nv :=
    getPreferred_backup_after_update db uid nv bval hb
  have hnotmem : (jsToUpper code) ∉ parseBackupCodes nv := by
    rw [hnv, hround]
    exact List.count_eq_zero.mp hzero
  have hfind2 : (parseBackupCodes nv).findIdx? (fun c => c == jsToUpper code) = none :=
    findIdx?_beq_eq_none_of_not_mem (jsToUpper code) (parseBackupCodes nv) 0 hnotmem
  unfold verifyLogin
  rw [hs2]
  simp only [htotp, Bool.false_eq_true, if_false]
  rw [hb2]
  simp [hfind2]

/-- Witness for C7: user 7's JSON-stored code `AAAA1111`, presented in
lowercase, verifies once and is rejected on the second presentation. -/
theorem c7_backup_code_consumed_once_witness :
    (verifyLogin c7Db (fun _ _ => false) 7 "aaaa1111").2 = .verifiedBackup ∧
    (verifyLogin (verifyLogin c7Db (fun _ _ => false) 7 "aaaa1111").1
      (fun _ _ => false) 7 "aaaa1111").2 = .invalidCode := by
  have h := c7_backup_code_consumed_once c7Db (fun _ _ => false) 7 "aaaa1111" "S7"
    "[\"AAAA1111\",\"BBBB2222\"]" 0
    (by decide) (by decide) (by decide) (by decide) (by decide) (by decide)
  exact ⟨h.1, h.2.2.2⟩

/-! ## C10 -/

/-- C10: `POST /2fa/verify-login` authenticates no caller.  The embedded
operation's entire input is the store, the time-abstracted TOTP checker,
and the request body's `userId` and `code` — there is no token argument
and no middleware, unlike every other 2FA route — so *any* caller who
supplies a user id with a stored secret together with a currently valid
TOTP code (first clause) or an unconsumed backup code (second clause)
receives a successful verification. -/
theorem c10_verify_login_requires_no_caller_identity (db : DB)
    (totpVerify : String → String → Bool) (uid : Nat) (code s : String)
    (hs : getPreferredUserSetting db uid "twoFactorSecret" "twofa_secret" = some s) :
    (totpVerify s code = true → (verifyLogin db totpVerify uid code).2 = .verifiedTotp) ∧
    (∀ bval i, totpVerify s code = false →
      getPreferredUserSetting db uid "twoFactorBackupCodes" "backup_codes" = some bval →
      (parseBackupCodes bval).findIdx? (fun c => c == jsToUpper code) = some i →
      (verifyLogin db totpVerify uid code).2 = .verifiedBackup) := by
  constructor
  · intro ht
    unfold verifyLogin
    rw [hs]
    simp [ht]
  · intro bval i ht hb hfind
    unfold verifyLogin
    rw [hs]
    simp only [ht, Bool.false_eq_true, if_false]
    rw [hb]
    simp [hfind]

/-- Witness for C10: with no credential beyond user 10's id, a valid TOTP
code succeeds, and so does the stored backup code `CCCC3333`. -/
theorem c10_verify_login_requires_no_caller_identity_witness :
    (verifyLogin c10Db c10Totp 10 "123456").2 = .verifiedTotp ∧
    (verifyLogin c10Db c10Totp 10 "cccc3333").2 = .verifiedBackup := by
  have h1 := c10_verify_login_requires_no_caller_identity c10Db c10Totp 10 "123456" "S10"
    (by decide)
  have h2 := c10_verify_login_requires_no_caller_identity c10Db c10Totp 10 "cccc3333" "S10"
    (by decide)
  exact ⟨h1.1 (by decide),
    h2.2 "CCCC3333,DDDD4444" 0 (by decide) (by decide) (by decide)⟩

/-! ## C8 -/

/-- C8: the SSO callback's group-to-role mapping grants `admin` whenever
the claimed groups list contains `"admin"` (the case-insensitive substring
match against the admin-group name list fires on it), grants `poweruser`
whenever it contains `"power-users"` and no group matches the admin-group
name list, and falls back to `user` when no configured group name matches
at all. -/
theorem c8_sso_group_role_mapping :
    (∀ groups : List String, "admin" ∈ groups → mapGroupsToRole groups = "admin") ∧
    (∀ groups : List String, "power-users" ∈ groups →
      (∀ g ∈ groups, ∀ ag ∈ adminGroups, strContains (jsToLower g) ag = false) →
      mapGroupsToRole groups = "poweruser") ∧
    (∀ groups : List String,
      (∀ g ∈ groups, ∀ ag ∈ adminGroups, strContains (jsToLower g) ag = false) →
      (∀ g ∈ groups, ∀ pg ∈ powerUserGroups, strContains (jsToLower g) pg = false) →
      mapGroupsToRole groups = "user") := by
  refine ⟨?_, ?_, ?_⟩
  · intro groups h
    have hA : (groups.map jsToLower).any
        (fun g => adminGroups.any (fun ag => strContains g ag)) = true :=
      List.any_eq_true.mpr ⟨jsToLower "admin", List.mem_map_of_mem _ h, by decide⟩
    simp [mapGroupsToRole, hA]
  · intro groups h hadm
    have hA : (groups.map jsToLower).any
        (fun g => adminGroups.any (fun ag => strContains g ag)) = false := by
      rw [List.any_eq_false]
      intro x hx
      obtain ⟨g, hg, rfl⟩ := List.mem_map.mp hx
      have hinner : adminGroups.any (fun ag => strContains (jsToLower g) ag) = false := by
        rw [List.any_eq_false]
        intro ag hag
        rw [hadm g hg ag hag]
        exact Bool.false_ne_true
      rw [hinner]
      exact Bool.false_ne_true
    have hP : (groups.map jsToLower).any
        (fun g => powerUserGroups.any (fun pg => strContains g pg)) = true :=
      List.any_eq_true.mpr ⟨jsToLower "power-users", List.mem_map_of_mem _ h, by decide⟩
    simp [mapGroupsToRole, hA, hP]
  · intro groups hadm hpow
    have hA : (groups.map jsToLower).any
        (fun g => adminGroups.any (fun ag => strContains g ag)) = false := by
      rw [List.any_eq_false]
      intro x hx
      obtain ⟨g, hg, rfl⟩ := List.mem_map.mp hx
      have hinner : adminGroups.any (fun ag => strContains (jsToLower g) ag) = false := by
        rw [List.any_eq_false]
        intro ag hag
        rw [hadm g hg ag hag]
        exact Bool.false_ne_true
      rw [hinner]
      exact Bool.false_ne_true
    have hP : (groups.map jsToLower).any
        (fun g => powerUserGroups.any (fun pg => strContains g pg)) = false := by
      rw [List.any_eq_false]
      intro x hx
      obtain ⟨g, hg, rfl⟩ := List.mem_map.mp hx
      have hinner : powerUserGroups.any (fun pg => strContains (jsToLower g) pg) = false := by
        rw [List.any_eq_false]
        intro pg hpg
        rw [hpow g hg pg hpg]
        exact Bool.false_ne_true
      rw [hinner]
      exact Bool.false_ne_true
    simp [mapGroupsToRole, hA, hP]

/-- Witness for C8 at the three payloads named by the claim. -/
theorem c8_sso_group_role_mapping_witness :
    mapGroupsToRole ["admin"] = "admin" ∧
    mapGroupsToRole ["power-users"] = "poweruser" ∧
    mapGroupsToRole ["staff", "devs"] = "user" :=
  ⟨c8_sso_group_role_mapping.1 ["admin"] (by decide),
    c8_sso_group_role_mapping.2.1 ["power-users"] (by decide) (by decide),
    c8_sso_group_role_mapping.2.2 ["staff", "devs"] (by decide) (by decide)⟩

/-! ## C9 -/

/-- C9 counterexample: the first SSO login of `alice@example.com` creates
`alice`, and the second distinct external identity with the same email
local-part creates `alice2` — not `alice1` as the claim states — even
though `alice1` is free: the collision loop's counter is pre-incremented
from 1, so the first suffix tried is 2. -/
theorem c9_second_identity_counterexample :
    c9Out1.isSignup = true ∧ c9Out1.username = "alice" ∧
    usernameTaken c9Out1.db "alice1" = false ∧
    c9Out2.isSignup = true ∧ c9Out2.username = "alice2" ∧
    c9Out2.username ≠ "alice1" := by
  decide

/-- C9 amended: on SSO first-login the local username is the email
local-part when that name is free; when it is taken, the deterministic
numeric suffix starts at 2 (`` `${base}${++counter}` `` with `counter`
initialised to 1), so a second distinct identity with the same local part
is created as `base2`, not `base1`. -/
theorem c9_sso_username_collision_suffix (db : DB) (nowMs : Nat)
    (ssoId email displayName issuer : String) (groups : List String) (base : String)
    (hsso : db.users.find? (fun u => u.ssoId == some ssoId) = none)
    (hbase : (strSplit email '@').headD "" = base) :
    (usernameTaken db base = false →
      (ssoCallbackUpsert db nowMs ssoId email displayName issuer groups).username = base) ∧
    (usernameTaken db base = true → usernameTaken db (base ++ "2") = false →
      (ssoCallbackUpsert db nowMs ssoId email displayName issuer groups).username =
        base ++ "2") := by
  constructor
  · intro hfree
    simp only [ssoCallbackUpsert, hsso, hbase]
    simp only [findFreeUsername, hfree, Bool.false_eq_true, if_false]
  · intro htaken hfree2
    simp only [ssoCallbackUpsert, hsso, hbase]
    simp only [findFreeUsername, htaken, if_true]
    simp only [findFreeUsernameAux]
    have h2 : base ++ toString 2 = base ++ "2" := rfl
    rw [h2, hfree2]
    simp

/-- Witness for C9's amended statement on the concrete fixture stores. -/
theorem c9_sso_username_collision_suffix_witness :
    (ssoCallbackUpsert c9Db0 0 "sub-1" "alice@example.com" "Alice One"
      "https://idp.example" ["users"]).username = "alice" ∧
    (ssoCallbackUpsert c9Out1.db 5 "sub-2" "alice@example.com" "Alice Two"
      "https://idp.example" ["users"]).username = "alice" ++ "2" := by
  have h1 := c9_sso_username_collision_suffix c9Db0 0 "sub-1" "alice@example.com"
    "Alice One" "https://idp.example" ["users"] "alice" (by decide) (by decide)
  have h2 := c9_sso_username_collision_suffix c9Out1.db 5 "sub-2" "alice@example.com"
    "Alice Two" "https://idp.example" ["users"] "alice" (by decide) (by decide)
  exact ⟨h1.1 (by decide), h2.2 (by decide) (by decide)⟩

end Landio
